import Mathlib

/-!
Verification of the TransferView UI component (src/showTransferDataWeb/src/App.tsx).

The component is embedded shallowly: the React `useState` cells become the
fields of `AppState`; each event handler becomes a pure function from state
to state, paired with the list of external effects (HTTP requests, wallet
calls) it emits; the asynchronous `fetchTransfers` is split into its
synchronous prefix (`fetchStart`, which runs up to the `fetch` call) and the
resolution of the awaited response (`fetchResolve`), with the possible
response outcomes enumerated by `FetchOutcome`.
-/

namespace TransferView

/-- A transfer record as declared by `type Transfer` in App.tsx.
JavaScript `from` is spelled `from_` because `from` is a Lean keyword. -/
structure Transfer where
  from_ : String
  to_ : String
  value : String
  timestamp : Int
deriving Repr, DecidableEq

/-- The pagination state object initialised at lines 17-22 of App.tsx. -/
structure Pagination where
  page : Int
  limit : Int
  total : Int
  pages : Int
deriving Repr, DecidableEq

/-- The filter union type of line 23: one of the literals
`all`, `in`, `out` (the latter two renamed, `in` being a Lean keyword). -/
inductive Filter where
  | all : Filter
  | inDir : Filter
  | outDir : Filter
deriving Repr, DecidableEq

/-- The string value the code stores for each filter literal; the source
keeps the literal strings themselves. -/
def Filter.toParam : Filter → String
  | .all => "all"
  | .inDir => "in"
  | .outDir => "out"

/-- The local component state: one field per `useState` cell of App.tsx
(transfers, pagination, filter, isLoading, fetchError, selectedTransfer). -/
structure AppState where
  transfers : List Transfer
  pagination : Pagination
  filter : Filter
  isLoading : Bool
  fetchError : String
  selectedTransfer : Option Transfer
deriving Repr, DecidableEq

/-- The default pagination object used both as the initial state (lines
17-22) and as the fallback when a response lacks a `pagination` field
(lines 55-60). -/
def defaultPagination : Pagination := { page := 1, limit := 10, total := 0, pages := 1 }

/-- External effects the handlers can emit. -/
inductive Effect where
  | httpRequest : String → List (String × String) → Effect
  | walletDisconnect : Effect
deriving Repr, DecidableEq

/-- A value thrown inside the `try` block and caught at line 61: either a
JavaScript `Error` object carrying a message, or any non-`Error` value. -/
inductive Thrown where
  | errorObj : String → Thrown
  | nonError : Thrown
deriving Repr, DecidableEq

/-- The possible resolutions of the awaited `fetch` + `response.json()`:
a 2xx response whose parsed body may lack (or hold falsy) `transfers` or
`pagination` fields; a non-2xx response (`response.ok` false, line 52); or
a thrown transport / JSON-parse error reaching the `catch` at line 61. -/
inductive FetchOutcome where
  | success : Option (List Transfer) → Option Pagination → FetchOutcome
  | httpNotOk : FetchOutcome
  | thrown : Thrown → FetchOutcome
deriving Repr, DecidableEq

/-- Whether an outcome takes an error path of `fetchTransfers`. -/
def FetchOutcome.isFailure : FetchOutcome → Bool
  | .success _ _ => false
  | .httpNotOk => true
  | .thrown _ => true

/-- The message computed at line 62:
`err instanceof Error ? err.message : 'Unknown error'`. -/
def Thrown.caughtMessage : Thrown → String
  | .errorObj m => m
  | .nonError => "Unknown error"

/-- The query parameters set on the request URL at lines 45-49, in the
order the code sets them: `page`, `limit`, then `type` only when the
filter is not `all`. -/
def queryParams (s : AppState) : List (String × String) :=
  [("page", toString s.pagination.page), ("limit", toString s.pagination.limit)]
    ++ (if s.filter = Filter.all then [] else [("type", s.filter.toParam)])

/-- The synchronous prefix of `fetchTransfers` (lines 41-42):
`setIsLoading(true); setFetchError('')`. -/
def fetchStart (s : AppState) : AppState :=
  { s with isLoading := true, fetchError := "" }

/-- The state transition applied when the awaited response resolves:
the success branch (lines 54-60), the non-2xx throw rejoining the `catch`
(lines 52 and 61-63), or a caught transport / parse error (lines 61-63);
in every case the `finally` block (lines 64-66) clears the loading flag. -/
def fetchResolve (s : AppState) (o : FetchOutcome) : AppState :=
  match o with
  | .success ts pg =>
      { s with transfers := ts.getD [],
               pagination := pg.getD defaultPagination,
               isLoading := false }
  | .httpNotOk =>
      { s with fetchError := "Network response was not ok", isLoading := false }
  | .thrown t =>
      { s with fetchError := t.caughtMessage, isLoading := false }

/-- One complete run of `fetchTransfers` (lines 40-67) for a given account
address and response outcome: the synchronous prefix, the single HTTP GET
to `/api/transfers/{address}` with the query built at lines 44-49, and the
resolution of the response. -/
def fetchTransfers (addr : String) (s : AppState) (o : FetchOutcome) :
    AppState × List Effect :=
  let s1 := fetchStart s
  (fetchResolve s1 o, [Effect.httpRequest addr (queryParams s1)])

/-- The filter radio handlers (lines 95, 103, 111): `setFilter(value)`,
emitting no effect. -/
def onFilterChange (s : AppState) (f : Filter) : AppState × List Effect :=
  ({ s with filter := f }, [])

/-- The Previous button handler (line 169):
`setPagination(prev => (\x7b...prev, page: prev.page - 1\x7d))`, no effect. -/
def onPrevClick (s : AppState) : AppState × List Effect :=
  ({ s with pagination := { s.pagination with page := s.pagination.page - 1 } }, [])

/-- The Next button handler (line 178):
`setPagination(prev => (\x7b...prev, page: prev.page + 1\x7d))`, no effect. -/
def onNextClick (s : AppState) : AppState × List Effect :=
  ({ s with pagination := { s.pagination with page := s.pagination.page + 1 } }, [])

/-- The Disconnect button handler (line 85): `() => disconnect()` —
a delegation to the wallet connector touching no local state. -/
def onDisconnectClick (s : AppState) : AppState × List Effect :=
  (s, [Effect.walletDisconnect])

/-- Clicking a row date cell (line 157): `setSelectedTransfer(transfer)`. -/
def selectTransfer (s : AppState) (t : Transfer) : AppState :=
  { s with selectedTransfer := some t }

/-- The overlay Close button (line 220): `setSelectedTransfer(null)`. -/
def closeOverlay (s : AppState) : AppState :=
  { s with selectedTransfer := none }

/-- The Previous button disabled condition (line 168): `pagination.page <= 1`. -/
def prevDisabled (p : Pagination) : Bool := p.page ≤ 1

/-- The Next button disabled condition (line 177):
`pagination.page >= pagination.pages`. -/
def nextDisabled (p : Pagination) : Bool := p.page ≥ p.pages

/-- The millisecond argument of the table row date (line 159):
`new Date(transfer.timestamp)`. -/
def rowDateMillis (t : Transfer) : Int := t.timestamp

/-- The content of the detail overlay (lines 207-218): the selected
record's `from`, `to`, `value`, and a date built from
`selectedTransfer.timestamp * 1000` (line 217). -/
structure OverlayView where
  from_ : String
  to_ : String
  value : String
  dateMillis : Int
deriving Repr, DecidableEq

/-- The overlay rendered for a selected transfer (lines 206-218). -/
def overlayOf (t : Transfer) : OverlayView :=
  { from_ := t.from_, to_ := t.to_, value := t.value, dateMillis := t.timestamp * 1000 }

/-- Visibility of the loading paragraph (line 134): `isLoading && ...`. -/
def loadingVisible (s : AppState) : Bool := s.isLoading

/-- Visibility of the inline error (line 135): `fetchError && ...`, truthy
exactly when the string is non-empty. -/
def errorVisible (s : AppState) : Bool := decide (s.fetchError ≠ "")

/-- Visibility of the detail overlay (line 186): `selectedTransfer && ...`. -/
def overlayVisible (s : AppState) : Bool := s.selectedTransfer.isSome

/-- Propositional side condition for failure outcomes: a JavaScript `Error`
reaching the catch carries a non-empty message (true of every transport
and JSON-parse error the browser throws). -/
def thrownMessageNonempty : FetchOutcome → Prop
  | .thrown (.errorObj m) => m ≠ ""
  | _ => True

/-- A concrete state used to instantiate hypotheses. -/
def sampleState : AppState :=
  { transfers := [{ from_ := "0xA", to_ := "0xB", value := "100", timestamp := 1000 }],
    pagination := { page := 2, limit := 10, total := 11, pages := 2 },
    filter := Filter.inDir,
    isLoading := false,
    fetchError := "",
    selectedTransfer := none }

/-- C1: for every 2xx response, the displayed transfer list is replaced by
exactly the response body's `transfers` field (empty list when absent or
falsy), the pagination state by its `pagination` field (the default
`{page:1, limit:10, total:0, pages:1}` when absent), and no error is
raised: the error string ends empty. -/
theorem fetch_success_replaces_state (addr : String) (s : AppState)
    (ts : Option (List Transfer)) (pg : Option Pagination) :
    (fetchTransfers addr s (.success ts pg)).1.transfers = ts.getD []
      ∧ (fetchTransfers addr s (.success ts pg)).1.pagination = pg.getD defaultPagination
      ∧ defaultPagination = { page := 1, limit := 10, total := 0, pages := 1 }
      ∧ (fetchTransfers addr s (.success ts pg)).1.fetchError = "" := by
  exact ⟨rfl, rfl, rfl, rfl⟩

/-- C2: for every failing run of `fetchTransfers` (non-2xx status, thrown
transport or parse error), the previously displayed transfer list and
pagination are unchanged, a non-empty error string becomes visible (granted
that a thrown `Error` carries a non-empty message), and a non-2xx response
yields exactly the text `Network response was not ok`. -/
theorem fetch_failure_preserves_state (addr : String) (s : AppState)
    (o : FetchOutcome) (hfail : o.isFailure = true)
    (hmsg : thrownMessageNonempty o) :
    (fetchTransfers addr s o).1.transfers = s.transfers
      ∧ (fetchTransfers addr s o).1.pagination = s.pagination
      ∧ errorVisible (fetchTransfers addr s o).1 = true
      ∧ (o = FetchOutcome.httpNotOk →
          (fetchTransfers addr s o).1.fetchError = "Network response was not ok") := by
  match o with
  | .success ts pg => simp [FetchOutcome.isFailure] at hfail
  | .httpNotOk =>
      refine ⟨rfl, rfl, rfl, fun _ => rfl⟩
  | .thrown t =>
      refine ⟨rfl, rfl, ?_, fun h => by cases h⟩
      cases t with
      | errorObj m =>
          simpa [fetchTransfers, fetchStart, fetchResolve, Thrown.caughtMessage,
            errorVisible, thrownMessageNonempty] using hmsg
      | nonError => rfl

/-- Witness for C2 at a concrete state and the non-2xx outcome. -/
theorem fetch_failure_preserves_state_witness :
    (fetchTransfers "0xAbc" sampleState FetchOutcome.httpNotOk).1.transfers
        = sampleState.transfers
      ∧ (fetchTransfers "0xAbc" sampleState FetchOutcome.httpNotOk).1.pagination
        = sampleState.pagination
      ∧ errorVisible (fetchTransfers "0xAbc" sampleState FetchOutcome.httpNotOk).1 = true
      ∧ (FetchOutcome.httpNotOk = FetchOutcome.httpNotOk →
          (fetchTransfers "0xAbc" sampleState FetchOutcome.httpNotOk).1.fetchError
            = "Network response was not ok") :=
  fetch_failure_preserves_state "0xAbc" sampleState FetchOutcome.httpNotOk
    (by decide) (by trivial)

/-- C3: the loading flag is set on entry to `fetchTransfers` and is false
after the run resolves, whatever the outcome — success, non-2xx response,
JSON-parse failure or transport error. -/
theorem fetch_loading_flag (addr : String) (s : AppState) (o : FetchOutcome) :
    (fetchStart s).isLoading = true
      ∧ (fetchTransfers addr s o).1.isLoading = false := by
  refine ⟨rfl, ?_⟩
  cases o <;> rfl

/-- C4: every run of `fetchTransfers` issues exactly one HTTP request whose
query carries `page` and `limit` from the current pagination state, and
carries `type` (with the filter's own value, `in` or `out`) exactly when the
filter is not `all`. -/
theorem fetch_query_params (addr : String) (s : AppState) (o : FetchOutcome) :
    (fetchTransfers addr s o).2 = [Effect.httpRequest addr (queryParams s)]
      ∧ (queryParams s).lookup "page" = some (toString s.pagination.page)
      ∧ (queryParams s).lookup "limit" = some (toString s.pagination.limit)
      ∧ (queryParams s).lookup "type"
          = (if s.filter = Filter.all then none else some s.filter.toParam)
      ∧ Filter.inDir.toParam = "in" ∧ Filter.outDir.toParam = "out" := by
  refine ⟨rfl, ?_, ?_, ?_, rfl, rfl⟩ <;>
    by_cases h : s.filter = Filter.all <;>
      simp [queryParams, List.lookup, h]

/-- C5: the Previous button is disabled exactly when `page <= 1` and the
Next button exactly when `page >= pages`. -/
theorem pagination_buttons_disabled (p : Pagination) :
    (prevDisabled p = true ↔ p.page ≤ 1)
      ∧ (nextDisabled p = true ↔ p.pages ≤ p.page) := by
  constructor <;> simp [prevDisabled, nextDisabled]

/-- C6: the table row date is built from `timestamp` taken directly as
milliseconds while the detail overlay uses `timestamp * 1000`; the overlay
shows the selected row's `from`, `to` and `value`; clicking a row selects
it and Close clears the selection, removing the overlay. -/
theorem row_and_overlay_rendering (s : AppState) (t : Transfer) :
    rowDateMillis t = t.timestamp
      ∧ overlayOf t
          = { from_ := t.from_, to_ := t.to_, value := t.value,
              dateMillis := t.timestamp * 1000 }
      ∧ (selectTransfer s t).selectedTransfer = some t
      ∧ (closeOverlay s).selectedTransfer = none
      ∧ overlayVisible (closeOverlay s) = false := by
  exact ⟨rfl, rfl, rfl, rfl, rfl⟩

/-- C7: a filter change is a pure local update: it sets only the filter
field, leaves the transfer list, pagination, loading flag and error string
untouched, and emits no network request. -/
theorem filter_change_frame (s : AppState) (f : Filter) :
    (onFilterChange s f).1.filter = f
      ∧ (onFilterChange s f).1.transfers = s.transfers
      ∧ (onFilterChange s f).1.pagination = s.pagination
      ∧ (onFilterChange s f).1.isLoading = s.isLoading
      ∧ (onFilterChange s f).1.fetchError = s.fetchError
      ∧ (onFilterChange s f).1.selectedTransfer = s.selectedTransfer
      ∧ (onFilterChange s f).2 = [] := by
  exact ⟨rfl, rfl, rfl, rfl, rfl, rfl, rfl⟩

/-- C8: Previous and Next change `pagination.page` by exactly -1 and +1
respectively — unconditionally, with no clamping in the update itself —
while `limit`, `total`, `pages` and the transfer list are unchanged and no
effect is emitted; only the disabled conditions guard the bounds. -/
theorem page_buttons_frame (s : AppState) :
    (onPrevClick s).1.pagination.page = s.pagination.page - 1
      ∧ (onNextClick s).1.pagination.page = s.pagination.page + 1
      ∧ (onPrevClick s).1.pagination.limit = s.pagination.limit
      ∧ (onPrevClick s).1.pagination.total = s.pagination.total
      ∧ (onPrevClick s).1.pagination.pages = s.pagination.pages
      ∧ (onNextClick s).1.pagination.limit = s.pagination.limit
      ∧ (onNextClick s).1.pagination.total = s.pagination.total
      ∧ (onNextClick s).1.pagination.pages = s.pagination.pages
      ∧ (onPrevClick s).1.transfers = s.transfers
      ∧ (onNextClick s).1.transfers = s.transfers
      ∧ (onPrevClick s).2 = [] ∧ (onNextClick s).2 = [] := by
  exact ⟨rfl, rfl, rfl, rfl, rfl, rfl, rfl, rfl, rfl, rfl, rfl, rfl⟩

/-- C9: the Disconnect handler only delegates to the wallet connector: the
entire local view state — transfer list, pagination, filter, selected
record, loading flag and error string — is unchanged, so stale fetched data
remains visible. -/
theorem disconnect_frame (s : AppState) :
    (onDisconnectClick s).1 = s
      ∧ (onDisconnectClick s).1.transfers = s.transfers
      ∧ (onDisconnectClick s).1.pagination = s.pagination
      ∧ (onDisconnectClick s).1.filter = s.filter
      ∧ (onDisconnectClick s).1.selectedTransfer = s.selectedTransfer
      ∧ (onDisconnectClick s).1.isLoading = s.isLoading
      ∧ (onDisconnectClick s).1.fetchError = s.fetchError
      ∧ (onDisconnectClick s).2 = [Effect.walletDisconnect] := by
  exact ⟨rfl, rfl, rfl, rfl, rfl, rfl, rfl, rfl⟩

/-- C10: every run of `fetchTransfers` clears the error string before the
request, so a previous failure's message is gone at initiation, and after a
successful fetch — whatever error was displayed before — no error message
is visible. -/
theorem fetch_clears_previous_error (addr : String) (s : AppState)
    (ts : Option (List Transfer)) (pg : Option Pagination) :
    (fetchStart s).fetchError = ""
      ∧ (fetchTransfers addr s (.success ts pg)).1.fetchError = ""
      ∧ errorVisible (fetchTransfers addr s (.success ts pg)).1 = false := by
  exact ⟨rfl, rfl, rfl⟩

end TransferView
